import Mathlib

/-!
Verification of the client-side case/profile state synchronization and
form-validation flow of a legal case management front end.

The embedding models the three screens of the repository:
- the dashboard (profile fetch, case fetch, client-side filter, case creation),
- the upgrade/payment screen (profile fetch, three-step payment machine),
- the registration and login forms (pre-submission validation).

Strings are modelled as lists of characters; the JavaScript string
operations used by the source (toLowerCase, includes, trim, length,
equality) are modelled characterwise.  Asynchronous handlers are modelled
as pure state transformers taking the network outcome as an explicit
argument; emitted effects (network requests, toast notifications) are
returned alongside the new state.
-/

/-- JavaScript strings, modelled as lists of characters. -/
abbrev Str := List Char

/-- Model of `String.prototype.toLowerCase`, applied characterwise. -/
def lowerStr (s : Str) : Str := s.map Char.toLower

/-- Model of `String.prototype.trim`: drop whitespace from both ends. -/
def trimStr (s : Str) : Str :=
  ((s.dropWhile Char.isWhitespace).reverse.dropWhile Char.isWhitespace).reverse

/-- Model of `hay.includes(needle)` for JavaScript strings: substring test. -/
def jsIncludes (hay needle : Str) : Bool :=
  match hay with
  | [] => needle.isEmpty
  | c :: t => needle.isPrefixOf (c :: t) || jsIncludes t needle

/-- Status enumeration of a case row. -/
inductive CaseStatus
  | active
  | pending
  | closed
  deriving DecidableEq, Repr

/-- A profile row: identity, display name, Pro entitlement flag, creation
timestamp (from the `Profile` interface of the source). -/
structure Profile where
  id : Str
  user_id : Str
  first_name : Str
  last_name : Str
  is_pro : Bool
  created_at : Str
  deriving DecidableEq, Repr

/-- A case row (from the `Case` interface of the source).  The description
is optional: the creation flow stores `null` for a blank description and
the filter guards reads with optional chaining, so it is modelled as an
`Option`. -/
structure Case where
  id : Str
  user_id : Str
  title : Str
  description : Option Str
  status : CaseStatus
  file_count : Nat
  created_at : Str
  updated_at : Str
  deriving DecidableEq, Repr

/-- Predicate of the filter in the dashboard `useEffect`: the case title
lowercased contains the lowercased query, or the optional description does
(`case_.title.toLowerCase().includes(searchQuery.toLowerCase()) ||
case_.description?.toLowerCase().includes(searchQuery.toLowerCase())`).
An absent description short-circuits to a non-match. -/
def caseMatches (q : Str) (c : Case) : Bool :=
  jsIncludes (lowerStr c.title) (lowerStr q) ||
    (match c.description with
     | some d => jsIncludes (lowerStr d) (lowerStr q)
     | none => false)

/-- The filter `useEffect` of the dashboard: with a truthy (non-empty)
query the displayed list is `cases.filter(...)`; with an empty query it is
the full list. -/
def computeFiltered (searchQuery : Str) (cases : List Case) : List Case :=
  if searchQuery.isEmpty then cases
  else cases.filter (caseMatches searchQuery)

/-- Specification-level matching relation: the title or the (present)
description contains the query case-insensitively. -/
def CaseMatchesSpec (q : Str) (c : Case) : Prop :=
  lowerStr q <:+: lowerStr c.title ∨
    ∃ d, c.description = some d ∧ lowerStr q <:+: lowerStr d

/-- A concrete case with no description, used to instantiate theorems. -/
def caseDemo : Case :=
  { id := "c1".toList
    user_id := "u1".toList
    title := "Smith v. Jones".toList
    description := none
    status := CaseStatus.active
    file_count := 0
    created_at := "2024-01-01".toList
    updated_at := "2024-01-01".toList }

/-- Local state of the dashboard screen (the `useState` hooks of
`Dashboard`).  The derived `filteredCases` state is the value of
`computeFiltered searchQuery cases` and is not stored separately. -/
structure DashState where
  profile : Option Profile
  cases : List Case
  searchQuery : Str
  showCreateModal : Bool
  newCaseTitle : Str
  newCaseDescription : Str
  loading : Bool
  creating : Bool
  deriving DecidableEq, Repr

/-- Initial dashboard state: no profile, empty lists and fields, loading. -/
def dashInit : DashState :=
  { profile := none
    cases := []
    searchQuery := []
    showCreateModal := false
    newCaseTitle := []
    newCaseDescription := []
    loading := true
    creating := false }

/-- The backend error code meaning that a single-row select matched no
row (`PGRST116`). -/
def pgNoRows : Str := "PGRST116".toList

/-- Shared tail of the profile fetch: `if (data) setProfile(data)`. -/
def dashApplyProfileData (data : Option Profile) (s : DashState) :
    DashState × Bool :=
  match data with
  | some p => ({ s with profile := some p }, false)
  | none => (s, false)

/-- Completion of `fetchProfile` in the dashboard, applied to the fetch
result.  An error whose code differs from `PGRST116` is thrown and caught:
a failure toast is emitted (the returned flag) and the profile is left
untouched.  Otherwise the row, if present, replaces the profile.  The
dashboard variant has no `finally` clause, so `loading` is untouched. -/
def fetchProfileStep (data : Option Profile) (err : Option Str)
    (s : DashState) : DashState × Bool :=
  match err with
  | some code =>
    if code = pgNoRows then dashApplyProfileData data s
    else (s, true)
  | none => dashApplyProfileData data s

/-- Result of the case-collection select: either rows (possibly a null
payload, read as the empty list) or an error. -/
inductive CasesResult
  | ok (data : Option (List Case))
  | failed
  deriving DecidableEq, Repr

/-- Completion of `fetchCases`: on success the list is replaced wholesale
by `data || []`; on failure a toast is emitted and the list left alone;
in both branches the `finally` clause clears the loading flag. -/
def fetchCasesStep (res : CasesResult) (s : DashState) : DashState × Bool :=
  match res with
  | CasesResult.ok data => ({ s with cases := data.getD [], loading := false }, false)
  | CasesResult.failed => ({ s with loading := false }, true)

/-- Effects emitted by one run of the case-creation handler. -/
structure CreateEffects where
  networkCalled : Bool
  toastSuccess : Bool
  toastError : Bool
  deriving DecidableEq, Repr

/-- Absence of effects: no request issued, no toast shown. -/
def noCreateEffects : CreateEffects :=
  { networkCalled := false, toastSuccess := false, toastError := false }

/-- Outcome of the insert-returning-row call for a new case: the stored
row enriched with the server-assigned id and timestamps, or a failure. -/
inductive InsertOutcome
  | ok (id createdAt updatedAt : Str)
  | failed
  deriving DecidableEq, Repr

/-- The description value submitted by the creation flow:
`newCaseDescription.trim() || null`. -/
def submittedDescription (d : Str) : Option Str :=
  if (trimStr d).isEmpty then none else some (trimStr d)

/-- One full run of `handleCreateCase`.  The guard
`if (!user || !newCaseTitle.trim()) return` aborts with no effect when the
user is unset or the trimmed title is empty.  Otherwise the row
`{user_id, title: trim, description: trim-or-null, status: active,
file_count: 0}` is inserted; the row-storage service echoes it back with
server-assigned id and timestamps (modelled by the outcome argument).  On
success the returned row is prepended, the inputs cleared and the modal
closed; on failure only a toast is emitted.  The `finally` clause clears
the creating flag. -/
def handleCreateCase (user : Option Str) (outcome : InsertOutcome)
    (s : DashState) : DashState × CreateEffects :=
  match user with
  | none => (s, noCreateEffects)
  | some uid =>
    if (trimStr s.newCaseTitle).isEmpty then (s, noCreateEffects)
    else
      match outcome with
      | InsertOutcome.ok id ca ua =>
        let newCase : Case :=
          { id := id
            user_id := uid
            title := trimStr s.newCaseTitle
            description := submittedDescription s.newCaseDescription
            status := CaseStatus.active
            file_count := 0
            created_at := ca
            updated_at := ua }
        ({ s with cases := newCase :: s.cases
                  newCaseTitle := []
                  newCaseDescription := []
                  showCreateModal := false
                  creating := false },
         { networkCalled := true, toastSuccess := true, toastError := false })
      | InsertOutcome.failed =>
        ({ s with creating := false },
         { networkCalled := true, toastSuccess := false, toastError := true })

/-- The three shapes the dashboard render can take: the spinner while
auth or data is loading, `null` when user or profile is missing, and the
main view otherwise. -/
inductive DashView
  | loadingView
  | nothingView
  | mainView
  deriving DecidableEq, Repr

/-- Render guards of the dashboard:
`if (authLoading || loading) return spinner; if (!user || !profile) return
null;` then the main view. -/
def dashRender (authLoading user : Bool) (s : DashState) : DashView :=
  if authLoading || s.loading then DashView.loadingView
  else if !user || s.profile.isNone then DashView.nothingView
  else DashView.mainView

/-- Local state of the upgrade/payment screen (the `useState` hooks of
`Payment`). -/
structure PayState where
  profile : Option Profile
  paymentStep : Nat
  loading : Bool
  processing : Bool
  deriving DecidableEq, Repr

/-- Initial payment-screen state: step 1, loading, nothing in flight. -/
def payInit : PayState :=
  { profile := none, paymentStep := 1, loading := true, processing := false }

/-- Shared tail of the payment-screen profile fetch, with the `finally`
clause clearing the loading flag. -/
def payApplyProfileData (data : Option Profile) (t : PayState) :
    PayState × Bool :=
  match data with
  | some p => ({ t with profile := some p, loading := false }, false)
  | none => ({ t with loading := false }, false)

/-- Completion of `fetchProfile` in the payment screen: identical to the
dashboard variant except that a `finally` clause clears `loading` on
every path. -/
def payFetchProfileStep (data : Option Profile) (err : Option Str)
    (t : PayState) : PayState × Bool :=
  match err with
  | some code =>
    if code = pgNoRows then payApplyProfileData data t
    else ({ t with loading := false }, true)
  | none => payApplyProfileData data t

/-- Effects emitted by one run of the payment handler. -/
structure PayEffects where
  delayStarted : Bool
  updateIssued : Bool
  toastSuccess : Bool
  toastError : Bool
  deriving DecidableEq, Repr

/-- Absence of payment effects. -/
def noPayEffects : PayEffects :=
  { delayStarted := false, updateIssued := false
    toastSuccess := false, toastError := false }

/-- One full run of `handlePayment`.  The guard
`if (!user || !profile) return` aborts with no effect before the
simulated delay.  Otherwise the delay runs, the update of the profile row
is issued, and on success the local profile is patched in place
(`prev ? {...prev, is_pro: true} : null`) and the step advances to 3; on
failure only a toast is emitted.  The `finally` clause clears the
processing flag. -/
def handlePayment (user : Bool) (ok : Bool) (t : PayState) :
    PayState × PayEffects :=
  if user = false then (t, noPayEffects)
  else
    match t.profile with
    | none => (t, noPayEffects)
    | some _ =>
      if ok then
        ({ t with profile := t.profile.map (fun p => { p with is_pro := true })
                  paymentStep := 3
                  processing := false },
         { delayStarted := true, updateIssued := true
           toastSuccess := true, toastError := false })
      else
        ({ t with processing := false },
         { delayStarted := true, updateIssued := true
           toastSuccess := false, toastError := true })

/-- The views of the payment screen: spinner, `null`, the already-Pro
terminal card, the three step cards (the payment form recording whether
its button is disabled by `processing`), and the page chrome alone. -/
inductive PayView
  | loadingView
  | nothingView
  | alreadyProView
  | offerView
  | paymentFormView (processing : Bool)
  | successView
  | chromeOnlyView
  deriving DecidableEq, Repr

/-- Render guards of the payment screen: spinner while loading, `null`
without user or profile, the already-Pro card when `profile.is_pro`, and
otherwise the card selected by `paymentStep`. -/
def payRender (authLoading user : Bool) (t : PayState) : PayView :=
  if authLoading || t.loading then PayView.loadingView
  else
    match user, t.profile with
    | false, _ => PayView.nothingView
    | true, none => PayView.nothingView
    | true, some p =>
      if p.is_pro then PayView.alreadyProView
      else if t.paymentStep = 1 then PayView.offerView
      else if t.paymentStep = 2 then PayView.paymentFormView t.processing
      else if t.paymentStep = 3 then PayView.successView
      else PayView.chromeOnlyView

/-- Whether the step cards (and their buttons) are rendered at all: the
screen is past loading, a user and a profile are present, and the profile
is not already Pro. -/
def uiActive (user : Bool) (t : PayState) : Bool :=
  user && !t.loading &&
    (match t.profile with
     | some p => !p.is_pro
     | none => false)

/-- A click on the Complete Payment button: the button exists only on the
step-2 card and is disabled while `processing` is set; an effective click
runs `handlePayment`. -/
def clickPay (user : Bool) (ok : Bool) (t : PayState) :
    PayState × PayEffects :=
  if uiActive user t && t.paymentStep == 2 && !t.processing then
    handlePayment user ok t
  else (t, noPayEffects)

/-- Events driving one visit of the payment screen: completion of the
mount-time profile fetch, the Upgrade Now click, the Back click, and a
payment click together with the outcome of its update call. -/
inductive PayEvent
  | fetchResult (data : Option Profile) (err : Option Str)
  | upgradeClick
  | backClick
  | payClick (ok : Bool)
  deriving DecidableEq, Repr

/-- Transition function of the payment screen.  The profile fetch is
started by the mount effect and completes once, while the screen is still
loading; button clicks take effect only when the corresponding button is
rendered and enabled. -/
def payStep (user : Bool) (e : PayEvent) (t : PayState) : PayState :=
  match e with
  | PayEvent.fetchResult data err =>
    if user && t.loading then (payFetchProfileStep data err t).1 else t
  | PayEvent.upgradeClick =>
    if uiActive user t && t.paymentStep == 1 then
      { t with paymentStep := 2 }
    else t
  | PayEvent.backClick =>
    if uiActive user t && t.paymentStep == 2 && !t.processing then
      { t with paymentStep := 1 }
    else t
  | PayEvent.payClick ok => (clickPay user ok t).1

/-- States reachable in one visit of the payment screen. -/
inductive PayReachable (user : Bool) : PayState → Prop
  | init : PayReachable user payInit
  | step (e : PayEvent) {t : PayState} :
      PayReachable user t → PayReachable user (payStep user e t)

/-- Invariant of the payment machine: while the screen is still loading
it sits in step 1, and reaching step 3 implies the local profile is
present with its Pro flag set. -/
def PayInvariant (t : PayState) : Prop :=
  (t.loading = true → t.paymentStep = 1) ∧
  (t.paymentStep = 3 → ∃ p, t.profile = some p ∧ p.is_pro = true)

/-- A concrete non-Pro profile. -/
def freeDemo : Profile :=
  { id := "p1".toList
    user_id := "u1".toList
    first_name := "Ada".toList
    last_name := "Rao".toList
    is_pro := false
    created_at := "2024-01-01".toList }

/-- A concrete Pro profile. -/
def proDemo : Profile :=
  { freeDemo with id := "p2".toList, is_pro := true }

/-- The state of a demonstration visit: fetch a free profile, advance to
the payment form, complete a successful payment. -/
def payDemoFinal : PayState :=
  payStep true (PayEvent.payClick true)
    (payStep true PayEvent.upgradeClick
      (payStep true (PayEvent.fetchResult (some freeDemo) none) payInit))

/-- Condition under which the dashboard `fetchProfile` issues its select
request: only the `if (!user) return` guard precedes the request; no
state flag is consulted. -/
def dashFetchProfileRequests (user : Bool) (_s : DashState) : Bool := user

/-- Condition under which the dashboard `fetchCases` issues its select
request: likewise only the user guard precedes the request. -/
def dashFetchCasesRequests (user : Bool) (_s : DashState) : Bool := user

/-- A dashboard state with every boolean flag set. -/
def dashAllFlags : DashState :=
  { dashInit with showCreateModal := true, creating := true }

/-- A click on the Create Case button of the modal: the button exists
only while the modal is open and is disabled when the trimmed title is
blank or a creation is in flight; an effective click runs
`handleCreateCase`. -/
def clickCreateCase (user : Option Str) (outcome : InsertOutcome)
    (s : DashState) : DashState × CreateEffects :=
  if !s.showCreateModal || (trimStr s.newCaseTitle).isEmpty || s.creating then
    (s, noCreateEffects)
  else handleCreateCase user outcome s

/-- Error banner shown when a required field is blank. -/
def fillAllMsg : Str := "Please fill in all fields".toList

/-- Error banner shown when the password is shorter than 6 characters. -/
def pwLenMsg : Str := "Password must be at least 6 characters long".toList

/-- Error banner shown when the confirmation differs from the password. -/
def pwMismatchMsg : Str := "Passwords do not match".toList

/-- Error banner shown when the email fails the shape test. -/
def emailMsg : Str := "Please enter a valid email address".toList

/-- Characters admitted by the character class of the email test: neither
whitespace nor the at sign. -/
def emailChar (c : Char) : Bool := !c.isWhitespace && c != '@'

/-- Model of the email shape test of the registration form.  A match of
the anchored pattern (one or more non-space non-at characters, an at
sign, one or more such characters, a dot, one or more such characters)
necessarily splits the string at its only at sign, since the character
class excludes it; after the at sign there must be a dot with at least
one character on each side. -/
def emailRegexTest (s : Str) : Bool :=
  match s.dropWhile (fun c => c != '@') with
  | [] => false
  | _ :: domain =>
    let localPart := s.takeWhile (fun c => c != '@')
    !localPart.isEmpty && localPart.all emailChar &&
      !domain.isEmpty && domain.all emailChar &&
      ((domain.drop 1).dropLast.contains '.')

/-- The `validateForm` of the registration form, run synchronously on
submit: required fields, then password length, then confirmation match,
then email shape; the first failing rule yields its banner. -/
def validateRegister (firstName lastName email password confirm : Str) :
    Option Str :=
  if firstName.isEmpty || lastName.isEmpty || email.isEmpty ||
      password.isEmpty || confirm.isEmpty then some fillAllMsg
  else if password.length < 6 then some pwLenMsg
  else if password ≠ confirm then some pwMismatchMsg
  else if !emailRegexTest email then some emailMsg
  else none

/-- The pre-submission check of the login form: only the presence of
email and password is verified. -/
def validateLogin (email password : Str) : Option Str :=
  if email.isEmpty || password.isEmpty then some fillAllMsg else none

/-- The registration submission reaches the session provider exactly when
validation passes. -/
def registerDelegates (firstName lastName email password confirm : Str) :
    Bool :=
  (validateRegister firstName lastName email password confirm).isNone

/-- The login submission reaches the session provider exactly when its
presence check passes. -/
def loginDelegates (email password : Str) : Bool :=
  (validateLogin email password).isNone

/-- The substring test agrees with the list infix relation. -/
theorem jsIncludes_iff (hay needle : Str) :
    jsIncludes hay needle = true ↔ needle <:+: hay := by
  induction hay with
  | nil =>
    simp [jsIncludes, List.isEmpty_iff, List.infix_nil]
  | cons c t ih =>
    simp only [jsIncludes, Bool.or_eq_true, List.isPrefixOf_iff_prefix, ih,
      List.infix_cons_iff]

/-- The executable match of the source coincides with the specification
relation. -/
theorem caseMatches_iff (q : Str) (c : Case) :
    caseMatches q c = true ↔ CaseMatchesSpec q c := by
  cases hd : c.description with
  | none =>
    simp [caseMatches, hd, CaseMatchesSpec, jsIncludes_iff]
  | some d =>
    simp [caseMatches, hd, CaseMatchesSpec, jsIncludes_iff]

/-- C1: the client-side filter returns the empty list iff no case of the
list has a title or description containing the query case-insensitively;
filtering by the empty string returns the list unchanged and in order; a
case with an absent description matches only through its title. -/
theorem clientFilter_spec (q : Str) (L : List Case) :
    (computeFiltered q L = [] ↔ ∀ c ∈ L, ¬ CaseMatchesSpec q c) ∧
    computeFiltered [] L = L ∧
    (∀ c, c.description = none →
      (caseMatches q c = true ↔ lowerStr q <:+: lowerStr c.title)) := by
  refine ⟨?_, ?_, ?_⟩
  · by_cases hq : q = []
    · subst hq
      have hspec : ∀ c : Case, CaseMatchesSpec [] c := by
        intro c
        exact Or.inl (by simp [lowerStr])
      simp only [computeFiltered, List.isEmpty_nil, if_true]
      constructor
      · intro hL c hc
        simp [hL] at hc
      · intro h
        rcases L with _ | ⟨c, t⟩
        · rfl
        · exact absurd (hspec c) (h c (by simp))
    · have : q.isEmpty = false := by
        cases q with
        | nil => exact absurd rfl hq
        | cons a t => rfl
      simp only [computeFiltered, this, if_neg Bool.false_ne_true,
        List.filter_eq_nil_iff]
      constructor
      · intro h c hc
        have := h c hc
        rw [caseMatches_iff] at this
        exact this
      · intro h c hc
        rw [caseMatches_iff]
        exact h c hc
  · simp [computeFiltered]
  · intro c hd
    simp [caseMatches, hd, jsIncludes_iff]

/-- Witness for C1 at a concrete case and query. -/
theorem clientFilter_spec_witness :
    (caseMatches "smith".toList caseDemo = true ↔
      lowerStr "smith".toList <:+: lowerStr caseDemo.title) ∧
    computeFiltered [] [caseDemo] = [caseDemo] :=
  ⟨(clientFilter_spec "smith".toList [caseDemo]).2.2 caseDemo rfl,
   (clientFilter_spec "smith".toList [caseDemo]).2.1⟩

/-- C2: a successful creation with a non-blank trimmed title prepends to
the previous list a case carrying the trimmed title, status active and
file count zero, clears both input fields and closes the modal. -/
theorem createCase_success (uid : Str) (s : DashState) (id ca ua : Str)
    (h : trimStr s.newCaseTitle ≠ []) :
    ∃ newCase,
      (handleCreateCase (some uid) (InsertOutcome.ok id ca ua) s).1.cases =
        newCase :: s.cases ∧
      newCase.title = trimStr s.newCaseTitle ∧
      newCase.status = CaseStatus.active ∧
      newCase.file_count = 0 ∧
      (handleCreateCase (some uid) (InsertOutcome.ok id ca ua) s).1.newCaseTitle = [] ∧
      (handleCreateCase (some uid) (InsertOutcome.ok id ca ua) s).1.newCaseDescription = [] ∧
      (handleCreateCase (some uid) (InsertOutcome.ok id ca ua) s).1.showCreateModal = false := by
  have hne : (trimStr s.newCaseTitle).isEmpty = false := by
    cases ht : trimStr s.newCaseTitle with
    | nil => exact absurd ht h
    | cons a t => rfl
  refine ⟨{ id := id
            user_id := uid
            title := trimStr s.newCaseTitle
            description := submittedDescription s.newCaseDescription
            status := CaseStatus.active
            file_count := 0
            created_at := ca
            updated_at := ua }, ?_, rfl, rfl, rfl, ?_, ?_, ?_⟩ <;>
    simp [handleCreateCase, hne]

/-- Witness for C2 at a concrete state with a padded title. -/
theorem createCase_success_witness :
    ∃ newCase,
      (handleCreateCase (some "u1".toList)
        (InsertOutcome.ok "c9".toList "t1".toList "t1".toList)
        { dashInit with newCaseTitle := "  Smith v. Jones ".toList }).1.cases =
        newCase :: dashInit.cases ∧
      newCase.title = trimStr "  Smith v. Jones ".toList ∧
      newCase.status = CaseStatus.active ∧
      newCase.file_count = 0 ∧
      (handleCreateCase (some "u1".toList)
        (InsertOutcome.ok "c9".toList "t1".toList "t1".toList)
        { dashInit with newCaseTitle := "  Smith v. Jones ".toList }).1.newCaseTitle = [] ∧
      (handleCreateCase (some "u1".toList)
        (InsertOutcome.ok "c9".toList "t1".toList "t1".toList)
        { dashInit with newCaseTitle := "  Smith v. Jones ".toList }).1.newCaseDescription = [] ∧
      (handleCreateCase (some "u1".toList)
        (InsertOutcome.ok "c9".toList "t1".toList "t1".toList)
        { dashInit with newCaseTitle := "  Smith v. Jones ".toList }).1.showCreateModal = false :=
  createCase_success "u1".toList
    { dashInit with newCaseTitle := "  Smith v. Jones ".toList }
    "c9".toList "t1".toList "t1".toList (by decide)

/-- C4: with a blank trimmed title the handler performs no network call
and changes nothing (in particular the list and the open modal are left as
they are); a failed submission keeps the list, the modal state and both
input fields intact while emitting a failure toast. -/
theorem createCase_invalid_and_failure (uid : Str) (s : DashState)
    (outcome : InsertOutcome) :
    (trimStr s.newCaseTitle = [] →
      handleCreateCase (some uid) outcome s = (s, noCreateEffects)) ∧
    (trimStr s.newCaseTitle ≠ [] →
      (handleCreateCase (some uid) InsertOutcome.failed s).1.cases = s.cases ∧
      (handleCreateCase (some uid) InsertOutcome.failed s).1.showCreateModal =
        s.showCreateModal ∧
      (handleCreateCase (some uid) InsertOutcome.failed s).1.newCaseTitle =
        s.newCaseTitle ∧
      (handleCreateCase (some uid) InsertOutcome.failed s).1.newCaseDescription =
        s.newCaseDescription ∧
      (handleCreateCase (some uid) InsertOutcome.failed s).2.toastError = true ∧
      (handleCreateCase (some uid) InsertOutcome.failed s).2.networkCalled = true) := by
  constructor
  · intro h
    have he : (trimStr s.newCaseTitle).isEmpty = true := by
      rw [h]; rfl
    simp [handleCreateCase, he]
  · intro h
    have hne : (trimStr s.newCaseTitle).isEmpty = false := by
      cases ht : trimStr s.newCaseTitle with
      | nil => exact absurd ht h
      | cons a t => rfl
    refine ⟨?_, ?_, ?_, ?_, ?_, ?_⟩ <;> simp [handleCreateCase, hne]

/-- Witness for C4: a whitespace-only title is a no-op; a failure on a
valid title keeps the surface open and the input intact. -/
theorem createCase_invalid_and_failure_witness :
    handleCreateCase (some "u1".toList) InsertOutcome.failed
      { dashInit with newCaseTitle := "   ".toList, showCreateModal := true } =
      ({ dashInit with newCaseTitle := "   ".toList, showCreateModal := true },
        noCreateEffects) ∧
    (handleCreateCase (some "u1".toList) InsertOutcome.failed
      { dashInit with newCaseTitle := "Smith".toList, showCreateModal := true }).1.showCreateModal
      = true :=
  ⟨(createCase_invalid_and_failure "u1".toList
      { dashInit with newCaseTitle := "   ".toList, showCreateModal := true }
      InsertOutcome.failed).1 (by decide),
   by
    have := (createCase_invalid_and_failure "u1".toList
      { dashInit with newCaseTitle := "Smith".toList, showCreateModal := true }
      InsertOutcome.failed).2 (by decide)
    exact this.2.1⟩

/-- Decomposition of the condition under which the step cards render:
the user is present, loading has settled, and the profile is present and
not Pro. -/
theorem uiActive_eq_true {user : Bool} {t : PayState}
    (h : uiActive user t = true) :
    user = true ∧ t.loading = false ∧
      ∃ p, t.profile = some p ∧ p.is_pro = false := by
  cases hp : t.profile with
  | none => simp [uiActive, hp] at h
  | some p =>
    simp only [uiActive, hp, Bool.and_eq_true, Bool.not_eq_eq_eq_not,
      Bool.not_true] at h
    exact ⟨h.1.1, h.1.2, p, rfl, h.2⟩

/-- Every reachable state of a payment-screen visit satisfies the
invariant. -/
theorem payInvariant_of_reachable {user : Bool} {t : PayState}
    (h : PayReachable user t) : PayInvariant t := by
  induction h with
  | init => exact ⟨fun _ => rfl, by simp [payInit]⟩
  | step e a ih =>
    rename_i t
    obtain ⟨ih1, ih2⟩ := ih
    cases e with
    | fetchResult data err =>
      by_cases hg : (user && t.loading) = true
      · have h1 : t.paymentStep = 1 := by
          rw [Bool.and_eq_true] at hg
          exact ih1 hg.2
        cases err with
        | none =>
          cases data <;>
            simp [payStep, hg, payFetchProfileStep, payApplyProfileData,
              PayInvariant, h1]
        | some code =>
          by_cases hc : code = pgNoRows <;> cases data <;>
            simp [payStep, hg, payFetchProfileStep, payApplyProfileData,
              PayInvariant, h1, hc]
      · have hid : payStep user (PayEvent.fetchResult data err) t = t := by
          simp [payStep, hg]
        rw [hid]
        exact ⟨ih1, ih2⟩
    | upgradeClick =>
      by_cases hg : (uiActive user t && t.paymentStep == 1) = true
      · rw [Bool.and_eq_true] at hg
        obtain ⟨hui, hstep⟩ := hg
        obtain ⟨hu, hl, p, hp, hpro⟩ := uiActive_eq_true hui
        simp [payStep, hui, hstep, PayInvariant, hl]
      · have hid : payStep user PayEvent.upgradeClick t = t := by
          simp only [payStep, if_neg hg]
        rw [hid]
        exact ⟨ih1, ih2⟩
    | backClick =>
      by_cases hg : (uiActive user t && t.paymentStep == 2 && !t.processing) = true
      · rw [Bool.and_eq_true, Bool.and_eq_true] at hg
        obtain ⟨⟨hui, hstep⟩, hproc⟩ := hg
        obtain ⟨hu, hl, p, hp, hpro⟩ := uiActive_eq_true hui
        simp [payStep, hui, hstep, hproc, PayInvariant, hl]
      · have hid : payStep user PayEvent.backClick t = t := by
          simp only [payStep, if_neg hg]
        rw [hid]
        exact ⟨ih1, ih2⟩
    | payClick ok =>
      by_cases hg : (uiActive user t && t.paymentStep == 2 && !t.processing) = true
      · rw [Bool.and_eq_true, Bool.and_eq_true] at hg
        obtain ⟨⟨hui, hstep⟩, hproc⟩ := hg
        obtain ⟨hu, hl, p, hp, hpro⟩ := uiActive_eq_true hui
        have hstep2 : t.paymentStep = 2 := by simpa using hstep
        have hproc2 : t.processing = false := by simpa using hproc
        subst hu
        cases ok <;>
          simp [payStep, clickPay, hui, hstep, hproc, handlePayment, hp,
            PayInvariant, hl, hstep2, hproc2]
      · have hid : payStep user (PayEvent.payClick ok) t = t := by
          simp only [payStep, clickPay, if_neg hg]
        rw [hid]
        exact ⟨ih1, ih2⟩

/-- C3: the upgrade flow never reaches the terminal success step (step 3)
without the local profile having its Pro flag set, and entering the
screen with an already-Pro profile (once loading has settled) renders the
already-Pro terminal card, never the offer, payment-form or success
cards. -/
theorem upgrade_flow_safety :
    (∀ (user : Bool) (t : PayState), PayReachable user t →
      t.paymentStep = 3 → ∃ p, t.profile = some p ∧ p.is_pro = true) ∧
    (∀ (t : PayState) (p : Profile), t.profile = some p → p.is_pro = true →
      t.loading = false → payRender false true t = PayView.alreadyProView) := by
  constructor
  · intro user t h h3
    exact (payInvariant_of_reachable h).2 h3
  · intro t p hp hpro hl
    simp [payRender, hl, hp, hpro]

/-- Witness for C3: the demonstration visit ends in step 3 with a Pro
profile, and a loaded already-Pro state renders the already-Pro card. -/
theorem upgrade_flow_safety_witness :
    (∃ p, payDemoFinal.profile = some p ∧ p.is_pro = true) ∧
    payRender false true
      { profile := some proDemo, paymentStep := 1
        loading := false, processing := false } =
      PayView.alreadyProView := by
  constructor
  · refine upgrade_flow_safety.1 true payDemoFinal ?_ (by decide)
    exact PayReachable.step (PayEvent.payClick true)
      (PayReachable.step PayEvent.upgradeClick
        (PayReachable.step (PayEvent.fetchResult (some freeDemo) none)
          PayReachable.init))
  · exact upgrade_flow_safety.2 _ proDemo rfl rfl rfl

/-- C6 counterexample: after the profile fetch returns no row and the
case fetch completes (clearing the loading flag), the dashboard renders
`null` (the nothing view), not the loading indicator. -/
theorem dashboard_notFound_cex :
    dashRender false true
      ((fetchCasesStep (CasesResult.ok (some []))
        ((fetchProfileStep none (some pgNoRows) dashInit).1)).1) =
      DashView.nothingView ∧
    DashView.nothingView ≠ DashView.loadingView := by decide

/-- C6 amended: a not-found profile result leaves the state untouched
with no crash and no error toast; the loading indicator shows only while
the loading flag is set, and once the case fetch clears it the screen
renders nothing (blank) indefinitely, since the profile guard returns
`null`. -/
theorem dashboard_notFound_blank (s : DashState) (hp : s.profile = none) :
    fetchProfileStep none (some pgNoRows) s = (s, false) ∧
    (s.loading = true → dashRender false true s = DashView.loadingView) ∧
    (s.loading = false → dashRender false true s = DashView.nothingView) := by
  refine ⟨?_, ?_, ?_⟩
  · simp [fetchProfileStep, dashApplyProfileData]
  · intro h
    simp [dashRender, h]
  · intro h
    simp [dashRender, h, hp]

/-- Witness for the amended C6 at the initial state. -/
theorem dashboard_notFound_blank_witness :
    fetchProfileStep none (some pgNoRows) dashInit = (dashInit, false) ∧
    dashRender false true dashInit = DashView.loadingView ∧
    dashRender false true { dashInit with loading := false } =
      DashView.nothingView :=
  ⟨(dashboard_notFound_blank dashInit rfl).1,
   (dashboard_notFound_blank dashInit rfl).2.1 rfl,
   (dashboard_notFound_blank { dashInit with loading := false } rfl).2.2 rfl⟩

/-- C7: both profile loaders treat the no-matching-row code as a
non-error identical to no-profile-yet (state left unset, no toast), while
any other error code produces a toast and leaves the profile unset, even
if a row accompanied the error. -/
theorem profileLoader_notFound_vs_error (s : DashState) (t : PayState)
    (code : Str) (d : Option Profile)
    (hc : code ≠ pgNoRows) (hs : s.profile = none) (ht : t.profile = none) :
    fetchProfileStep none (some pgNoRows) s = (s, false) ∧
    (fetchProfileStep d (some code) s).1.profile = none ∧
    (fetchProfileStep d (some code) s).2 = true ∧
    (payFetchProfileStep none (some pgNoRows) t).1.profile = none ∧
    (payFetchProfileStep none (some pgNoRows) t).2 = false ∧
    (payFetchProfileStep d (some code) t).1.profile = none ∧
    (payFetchProfileStep d (some code) t).2 = true := by
  refine ⟨?_, ?_, ?_, ?_, ?_, ?_, ?_⟩ <;>
    simp [fetchProfileStep, payFetchProfileStep, dashApplyProfileData,
      payApplyProfileData, hc, hs, ht]

/-- Witness for C7 with a generic backend failure code. -/
theorem profileLoader_notFound_vs_error_witness :
    fetchProfileStep none (some pgNoRows) dashInit = (dashInit, false) ∧
    (fetchProfileStep none (some "500".toList) dashInit).2 = true :=
  ⟨(profileLoader_notFound_vs_error dashInit payInit "500".toList none
      (by decide) rfl rfl).1,
   (profileLoader_notFound_vs_error dashInit payInit "500".toList none
      (by decide) rfl rfl).2.2.1⟩

/-- C8: a successful payment patches the profile in place: the Pro flag
is set and every other field (id, user id, names, creation timestamp) is
preserved. -/
theorem payment_success_patches_profile (t : PayState) (p : Profile)
    (hp : t.profile = some p) :
    (handlePayment true true t).1.profile =
      some { id := p.id, user_id := p.user_id, first_name := p.first_name,
             last_name := p.last_name, is_pro := true,
             created_at := p.created_at } := by
  simp [handlePayment, hp]

/-- Witness for C8 at a concrete free profile. -/
theorem payment_success_patches_profile_witness :
    (handlePayment true true { payInit with profile := some freeDemo }).1.profile =
      some { id := freeDemo.id, user_id := freeDemo.user_id,
             first_name := freeDemo.first_name, last_name := freeDemo.last_name,
             is_pro := true, created_at := freeDemo.created_at } :=
  payment_success_patches_profile { payInit with profile := some freeDemo }
    freeDemo rfl

/-- C10: invoked with the user or the local profile unset, the payment
handler aborts before the simulated delay: no delay, no update request,
no toast, and the state (step, profile, flags) is returned unchanged. -/
theorem payment_noop_without_user_or_profile (user ok : Bool) (t : PayState)
    (h : user = false ∨ t.profile = none) :
    handlePayment user ok t = (t, noPayEffects) := by
  rcases h with h | h
  · simp [handlePayment, h]
  · cases user
    · simp [handlePayment]
    · simp [handlePayment, h]

/-- Witness for C10 with no profile loaded. -/
theorem payment_noop_without_user_or_profile_witness :
    handlePayment true true payInit = (payInit, noPayEffects) :=
  payment_noop_without_user_or_profile true true payInit (Or.inr rfl)

/-- C9 counterexample: with every boolean flag of the dashboard state set
(loading, creating, modal open), invoking either loader still issues its
request — neither the Profile Loader nor the Case Collection Loader
consults any local in-progress flag before submitting. -/
theorem reentrancy_guard_cex :
    dashAllFlags.loading = true ∧ dashAllFlags.creating = true ∧
    dashFetchProfileRequests true dashAllFlags = true ∧
    dashFetchCasesRequests true dashAllFlags = true := by decide

/-- C9 amended: the Case Creation Flow and the Upgrade payment step are
single-flight — while their creating/processing flag is set, a further
click performs no submission and changes nothing; the two loaders carry
no such guard (see the counterexample). -/
theorem reentrancy_guards (uid : Str) (user ok : Bool)
    (outcome : InsertOutcome) (s : DashState) (t : PayState)
    (hc : s.creating = true) (hp : t.processing = true) :
    clickCreateCase (some uid) outcome s = (s, noCreateEffects) ∧
    clickPay user ok t = (t, noPayEffects) := by
  constructor
  · simp [clickCreateCase, hc]
  · simp [clickPay, hp]

/-- Witness for the amended C9 with both flags set. -/
theorem reentrancy_guards_witness :
    clickCreateCase (some "u1".toList) InsertOutcome.failed
      { dashInit with creating := true, showCreateModal := true,
                      newCaseTitle := "X".toList } =
      ({ dashInit with creating := true, showCreateModal := true,
                       newCaseTitle := "X".toList }, noCreateEffects) ∧
    clickPay true true { payInit with processing := true } =
      ({ payInit with processing := true }, noPayEffects) :=
  reentrancy_guards "u1".toList true true InsertOutcome.failed
    { dashInit with creating := true, showCreateModal := true,
                    newCaseTitle := "X".toList }
    { payInit with processing := true } rfl rfl

/-- C5 counterexample: the login form applies no password-length and no
email-shape rule — a length-5 password beside a well-shaped email passes
its validation and is delegated to the session provider. -/
theorem form_validation_cex :
    validateLogin "a@b.co".toList "12345".toList = none ∧
    loginDelegates "a@b.co".toList "12345".toList = true ∧
    ("12345".toList).length = 5 := by decide

/-- C5 amended: the registration form validates synchronously on submit,
short-circuiting in the order required fields, password length at least
6, confirmation match, email shape, and delegates exactly the valid
submissions; length 5 is rejected and 6 accepted, a mismatched
confirmation is rejected, `not-an-email` is rejected and `a@b.co`
accepted.  The login form checks only that email and password are
present before delegating. -/
theorem form_validation (f l e p c q : Str) :
    ((f.isEmpty || l.isEmpty || e.isEmpty || p.isEmpty || c.isEmpty) = true →
      validateRegister f l e p c = some fillAllMsg) ∧
    ((f.isEmpty || l.isEmpty || e.isEmpty || p.isEmpty || c.isEmpty) = false →
      p.length < 6 → validateRegister f l e p c = some pwLenMsg) ∧
    ((f.isEmpty || l.isEmpty || e.isEmpty || p.isEmpty || c.isEmpty) = false →
      6 ≤ p.length → p ≠ c → validateRegister f l e p c = some pwMismatchMsg) ∧
    ((f.isEmpty || l.isEmpty || e.isEmpty || p.isEmpty || c.isEmpty) = false →
      6 ≤ p.length → p = c → emailRegexTest e = false →
      validateRegister f l e p c = some emailMsg) ∧
    (registerDelegates f l e p c = true ↔ validateRegister f l e p c = none) ∧
    (validateRegister f l e p c = none ↔
      ((f.isEmpty || l.isEmpty || e.isEmpty || p.isEmpty || c.isEmpty) = false ∧
        6 ≤ p.length ∧ p = c ∧ emailRegexTest e = true)) ∧
    (validateLogin e q = none ↔ (e.isEmpty = false ∧ q.isEmpty = false)) ∧
    (loginDelegates e q = true ↔ validateLogin e q = none) ∧
    validateRegister "A".toList "B".toList "a@b.co".toList
      "12345".toList "12345".toList = some pwLenMsg ∧
    validateRegister "A".toList "B".toList "a@b.co".toList
      "123456".toList "123456".toList = none ∧
    validateRegister "A".toList "B".toList "a@b.co".toList
      "123456".toList "654321".toList = some pwMismatchMsg ∧
    validateRegister "A".toList "B".toList "not-an-email".toList
      "123456".toList "123456".toList = some emailMsg := by
  refine ⟨?_, ?_, ?_, ?_, ?_, ?_, ?_, ?_, ?_, ?_, ?_, ?_⟩
  · intro h
    simp [validateRegister, h]
  · intro h hlen
    simp [validateRegister, h, hlen]
  · intro h hlen hne
    simp [validateRegister, h, Nat.not_lt.mpr hlen, hne]
  · intro h hlen heq hmail
    unfold validateRegister
    rw [if_neg (by simp [h]), if_neg (Nat.not_lt.mpr hlen),
      if_neg (not_not_intro heq), if_pos (by simp [hmail])]
  · simp [registerDelegates, Option.isNone_iff_eq_none]
  · constructor
    · intro h
      by_cases h1 : (f.isEmpty || l.isEmpty || e.isEmpty || p.isEmpty ||
          c.isEmpty) = true
      · unfold validateRegister at h
        rw [if_pos h1] at h
        exact absurd h (by simp)
      · have h1f : (f.isEmpty || l.isEmpty || e.isEmpty || p.isEmpty ||
            c.isEmpty) = false := by simpa using h1
        by_cases h2 : p.length < 6
        · unfold validateRegister at h
          rw [if_neg (by simp [h1f]), if_pos h2] at h
          exact absurd h (by simp)
        · by_cases h3 : p = c
          · by_cases h4 : emailRegexTest e = true
            · exact ⟨h1f, Nat.not_lt.mp h2, h3, h4⟩
            · have h4f : emailRegexTest e = false := by simpa using h4
              unfold validateRegister at h
              rw [if_neg (by simp [h1f]), if_neg h2, if_neg (not_not_intro h3),
                if_pos (by simp [h4f])] at h
              exact absurd h (by simp)
          · unfold validateRegister at h
            rw [if_neg (by simp [h1f]), if_neg h2, if_pos h3] at h
            exact absurd h (by simp)
    · rintro ⟨h1, h2, h3, h4⟩
      unfold validateRegister
      rw [if_neg (by simp [h1]), if_neg (Nat.not_lt.mpr h2),
        if_neg (not_not_intro h3), if_neg (by simp [h4])]
  · constructor
    · intro h
      by_cases h1 : e.isEmpty = true
      · unfold validateLogin at h
        rw [if_pos (by simp [h1])] at h
        exact absurd h (by simp)
      · by_cases h2 : q.isEmpty = true
        · unfold validateLogin at h
          rw [if_pos (by simp [h2])] at h
          exact absurd h (by simp)
        · exact ⟨by simpa using h1, by simpa using h2⟩
    · rintro ⟨h1, h2⟩
      simp [validateLogin, h1, h2]
  · simp [loginDelegates, Option.isNone_iff_eq_none]
  · decide
  · decide
  · decide
  · decide

/-- Witness for the amended C5 at concrete inputs. -/
theorem form_validation_witness :
    validateRegister [] [] [] [] [] = some fillAllMsg ∧
    validateLogin "a@b.co".toList "12345".toList = none :=
  ⟨(form_validation [] [] [] [] [] []).1 (by decide),
   (form_validation [] [] "a@b.co".toList [] [] "12345".toList).2.2.2.2.2.2.1.mpr
     ⟨by decide, by decide⟩⟩
